import Mathlib

/-!
# A verification development for the fxrecord runner/recorder protocol

This file gives a shallow embedding, in Lean 4, of the core of the
`fxrecord` repository: the runner-side session state machine
(`fxrunner/src/lib/proto.rs`), the session store
(`fxrunner/src/lib/session.rs`), the idle detector
(`fxrunner/src/lib/osapi.rs`), the archive extractor
(`fxrunner/src/lib/zip.rs`) and the recorder-side protocol client
(`fxrecorder/src/lib/proto.rs`).

External effects (filesystem probes, the Taskcluster artifact provider,
the socket, the RNG, the performance counters) are passed in as explicit
environment values, so every embedded operation is a pure, executable
function of its inputs.  Async control flow in the source is linear
(every future is immediately awaited), so each function is embedded as a
sequential function; message sends are recorded in an explicit trace.
-/

namespace Fxrecord

/-- The `DownloadStatus` progress tag
(`libfxrecord/src/net/message.rs`). -/
inductive DownloadStatus where
  | Downloading
  | Downloaded
  | Extracted
deriving DecidableEq, Repr

/-- Source `DownloadStatus::next` — the next expected state, if any
(`libfxrecord/src/net/message.rs`). -/
def DownloadStatus.next : DownloadStatus → Option DownloadStatus
  | .Downloading => some .Downloaded
  | .Downloaded => some .Extracted
  | .Extracted => none

/-- Whether the runner should wait to become idle
(`libfxrecord/src/net/message.rs`, `enum Idle`). -/
inductive Idle where
  | Wait
  | Skip
deriving DecidableEq, Repr

/-- A pref value: a JSON scalar (`libfxrecord/src/prefs.rs`).  Numbers are
modelled as integers; the handlers under verification only inspect the
pref list for emptiness. -/
inductive PrefValue where
  | boolean (b : Bool)
  | number (n : Int)
  | string (s : String)
deriving DecidableEq, Repr

/-! ## Idle detector (`fxrunner/src/lib/osapi.rs`) -/

/-- Raw read and write IO counters (`fxrunner/src/lib/osapi/perf.rs`,
`struct IoCounters`; both fields are `u32` in the source). -/
structure IoCounters where
  reads : Nat
  writes : Nat
deriving DecidableEq, Repr

/-- One round of sampling by the perf provider: the result of
`get_disk_io_counters()` and of `get_cpu_idle_time()`.  Error values are
represented by their display strings; the CPU idle fraction (an `f64`
in `[0,1]` in the source) is modelled as a rational. -/
structure PerfSample where
  io : Except String IoCounters
  cpu : Except String ℚ

/-- Source `WaitForIdleError` (`fxrunner/src/lib/osapi.rs`). -/
inductive WaitForIdleError where
  | TimeoutError
  | DiskIoError (msg : String)
  | CpuTimeError (msg : String)
deriving DecidableEq, Repr

/-- The display string of a `WaitForIdleError` (its `thiserror`
attributes: the timeout message is fixed, the other two variants are
transparent). -/
def WaitForIdleError.message : WaitForIdleError → String
  | .TimeoutError => "timed out waiting for CPU and disk to become idle"
  | .DiskIoError m => m
  | .CpuTimeError m => m

/-- Source `PerfProvider::ATTEMPT_COUNT` (`fxrunner/src/lib/osapi.rs`, default
value). -/
def ATTEMPT_COUNT : Nat := 30

/-- Source `TARGET_CPU_IDLE_PERCENTAGE` (`fxrunner/src/lib/osapi.rs`); the
source literal `0.95` is modelled as the rational `95/100`. -/
def TARGET_CPU_IDLE_PERCENTAGE : ℚ := 95 / 100

/-- Unsigned subtraction as the source performs it on `u32` counters
(`new_counters.reads - counters.reads`): defined when no underflow
occurs, `none` when the subtraction would underflow (which in the source
is an arithmetic panic in debug builds). -/
def checkedSub (a b : Nat) : Option Nat :=
  if b ≤ a then some (a - b) else none

/-- The loop body of `cpu_and_disk_idle` (`fxrunner/src/lib/osapi.rs`):
iteration `i` sleeps 500 ms (time is not modelled), resamples the disk
IO counters and the CPU idle fraction, and succeeds when both deltas
against the previous sample are zero and the idle fraction reaches the
target.  `fuel` counts the remaining iterations; `none` models an
arithmetic panic in the delta subtraction. -/
def cpuAndDiskIdleLoop (samples : Nat → PerfSample) :
    IoCounters → Nat → Nat → Option (Except WaitForIdleError Unit)
  | _, _, 0 => some (.error .TimeoutError)
  | counters, i, fuel + 1 =>
    match (samples i).io with
    | .error e => some (.error (.DiskIoError e))
    | .ok newCounters =>
      match (samples i).cpu with
      | .error e => some (.error (.CpuTimeError e))
      | .ok idle =>
        match checkedSub newCounters.reads counters.reads,
              checkedSub newCounters.writes counters.writes with
        | some delta_reads, some delta_writes =>
          if TARGET_CPU_IDLE_PERCENTAGE ≤ idle ∧ delta_reads = 0 ∧ delta_writes = 0 then
            some (.ok ())
          else
            cpuAndDiskIdleLoop samples newCounters (i + 1) fuel
        | _, _ => none

/-- Source `cpu_and_disk_idle` (`fxrunner/src/lib/osapi.rs`): take an initial
sample of the IO counters, then loop for up to `ATTEMPT_COUNT`
iterations.  The initial sample and the per-iteration samples are the
explicit inputs. -/
def cpu_and_disk_idle (initial : Except String IoCounters)
    (samples : Nat → PerfSample) : Option (Except WaitForIdleError Unit) :=
  match initial with
  | .error e => some (.error (.DiskIoError e))
  | .ok counters => cpuAndDiskIdleLoop samples counters 0 ATTEMPT_COUNT

/-- The chain of counters the loop threads through its iterations when
every sample succeeds: entry `0` is the initial sample, entry `k + 1`
is the value of sample `k`. -/
def countersChain (c0 : IoCounters) (f : Nat → IoCounters) : Nat → IoCounters
  | 0 => c0
  | k + 1 => f k

/-- Monotonicity precondition on the IO counter samples: along the
chain of successful samples the loop threads through its iterations,
every pair of consecutive counter values is non-decreasing (so the
source's `u32` subtraction cannot underflow).  The predicate follows
the loop structure: it constrains a sample only if the loop actually
reaches it. -/
def chainMono (samples : Nat → PerfSample) : IoCounters → Nat → Nat → Bool
  | _, _, 0 => true
  | counters, i, fuel + 1 =>
    match (samples i).io with
    | .error _ => true
    | .ok newCounters =>
      counters.reads ≤ newCounters.reads && counters.writes ≤ newCounters.writes &&
        chainMono samples newCounters (i + 1) fuel

/-- The samples at positions strictly below `k` succeed, with IO
counter values `f` and CPU idle fractions `g`. -/
def samplesOkBelow (samples : Nat → PerfSample) (f : Nat → IoCounters)
    (g : Nat → ℚ) (k : Nat) : Prop :=
  ∀ j, j < k → samples j = { io := .ok (f j), cpu := .ok (g j) }

/-- Sample `j` is non-decreasing relative to its predecessor in the
chain (the previous sample's counters, or the initial counters for
`j = 0`). -/
def monoAt (c0 : IoCounters) (f : Nat → IoCounters) (j : Nat) : Prop :=
  (countersChain c0 f j).reads ≤ (f j).reads ∧
    (countersChain c0 f j).writes ≤ (f j).writes

/-- Sample `j` observes an idle system: the idle fraction reaches the
target and the IO counters did not move since the previous sample of
the chain. -/
def idleAt (c0 : IoCounters) (f : Nat → IoCounters) (g : Nat → ℚ) (j : Nat) : Prop :=
  TARGET_CPU_IDLE_PERCENTAGE ≤ g j ∧
    (f j).reads = (countersChain c0 f j).reads ∧
    (f j).writes = (countersChain c0 f j).writes

/-! ## Archive extraction (`fxrunner/src/lib/zip.rs`) -/

/-- One entry of a zip archive, as the extraction loop observes it: its
sanitized name (a sequence of normal path components) and whether it is
a directory entry. -/
structure ZipEntry where
  name : List String
  isDir : Bool
deriving DecidableEq, Repr

/-- Source `ZipStats` (`fxrunner/src/lib/zip.rs`): the number of extracted
files and the common top-level directory of the archive. -/
structure ZipStats where
  extracted : Nat
  top_level_dir : Option (List String)
deriving DecidableEq, Repr

/-- The accumulating loop of `common_stem`
(`fxrunner/src/lib/zip.rs`): extend the common prefix while the zipped
components agree, stop at the first mismatch or when either path is
exhausted. -/
def commonStemGo : List String → List String → List String → List String
  | acc, c1 :: r1, c2 :: r2 =>
    if c1 = c2 then commonStemGo (acc ++ [c1]) r1 r2 else acc
  | acc, _, _ => acc

/-- Source `common_stem` (`fxrunner/src/lib/zip.rs`): the longest common
component prefix of two paths, or `none` when they share no leading
component.  Sanitized zip names contain only normal components, so the
`Component::Normal` guards of the source always pass. -/
def common_stem (p1 p2 : List String) : Option (List String) :=
  match commonStemGo [] p1 p2 with
  | [] => none
  | l => some l

/-- The body of the `unzip` entry loop (`fxrunner/src/lib/zip.rs`),
indexed by the entry position `i`: entry `0` seeds `top_level_dir`;
later entries fold it through `common_stem`; directory entries are
created and skipped; file entries are extracted and counted.  The
filesystem writes themselves always succeed in this model (each failure
path of the source merely aborts with a `ZipError` and never touches
the statistics). -/
def unzipLoop : List ZipEntry → Nat → ZipStats → ZipStats
  | [], _, stats => stats
  | e :: rest, i, stats =>
    let stats :=
      if i = 0 then
        { stats with top_level_dir := some e.name }
      else
        match stats.top_level_dir with
        | some top => { stats with top_level_dir := common_stem top e.name }
        | none => stats
    let stats :=
      if e.isDir then stats else { stats with extracted := stats.extracted + 1 }
    unzipLoop rest (i + 1) stats

/-- Source `unzip` (`fxrunner/src/lib/zip.rs`) on the success path: fold the
entry loop over the archive's entries starting from the default
(zero-valued) statistics. -/
def unzip (entries : List ZipEntry) : ZipStats :=
  unzipLoop entries 0 { extracted := 0, top_level_dir := none }

/-! ## Session store (`fxrunner/src/lib/session.rs`) -/

/-- Source `REQUEST_ID_LEN` (`fxrunner/src/lib/session.rs`). -/
def REQUEST_ID_LEN : Nat := 32

/-- Source `validate_session_id` (`fxrunner/src/lib/session.rs`):
`session_id.len() == REQUEST_ID_LEN` (Rust `str::len` is the UTF-8 byte
length) and every char is ASCII alphanumeric (`Char.isAlphanum` is true
exactly on the ASCII ranges `A-Z`, `a-z`, `0-9`). -/
def validate_session_id (session_id : String) : Bool :=
  session_id.utf8ByteSize == REQUEST_ID_LEN && session_id.data.all Char.isAlphanum

/-- Source `ResumeSessionErrorKind` (`fxrunner/src/lib/session.rs`). -/
inductive ResumeSessionErrorKind where
  | InvalidId
  | DoesNotExist
  | MissingProfile
  | MissingFirefox
deriving DecidableEq, Repr

/-- The display string of a `ResumeSessionErrorKind` (its `thiserror`
attributes). -/
def ResumeSessionErrorKind.message : ResumeSessionErrorKind → String
  | .InvalidId => "ID contains invalid characters"
  | .DoesNotExist => "does not exist to resume"
  | .MissingProfile => "missing a profile directory"
  | .MissingFirefox => "missing a Firefox binary"

/-- Source `ResumeSessionError` (`fxrunner/src/lib/session.rs`). -/
structure ResumeSessionError where
  session_id : String
  kind : ResumeSessionErrorKind
deriving DecidableEq, Repr

/-- The display string of a `ResumeSessionError`:
"Invalid session ID \x60id': kind". -/
def ResumeSessionError.message (e : ResumeSessionError) : String :=
  "Invalid session ID `" ++ e.session_id ++ "': " ++ e.kind.message

/-- Source `NewSessionError` (`fxrunner/src/lib/session.rs`); the `Io` variant
carries the display string of the underlying `io::Error`. -/
inductive NewSessionError where
  | Io (msg : String)
  | TooManyAttempts (n : Nat)
deriving DecidableEq, Repr

/-- The display string of a `NewSessionError` (its `thiserror`
attributes; `Io` is transparent). -/
def NewSessionError.message : NewSessionError → String
  | .Io m => m
  | .TooManyAttempts n =>
    "Could not create a request directory after " ++ toString n ++ " attempts"

/-- Source `SessionInfo` (`fxrunner/src/lib/session.rs`); the path is modelled
as the list of components below (and including) the session root. -/
structure SessionInfo where
  id : String
  path : List String
deriving DecidableEq, Repr

/-- The filesystem as `resume_session` probes it: directory and regular
file queries on paths given by their components relative to the session
root. -/
structure SessionFs where
  isDir : List String → Bool
  isFile : List String → Bool

/-- The outcome of `DefaultSessionManager::resume_session`: the result
and whether the validation cleanup guard ran (destroying the session
directory). -/
structure ResumeOutcome where
  result : Except ResumeSessionError SessionInfo
  destroyed : Bool
deriving Repr

/-- Source `DefaultSessionManager::resume_session`
(`fxrunner/src/lib/session.rs`): validate the ID, require the session
path to be a directory, then — with a cleanup guard armed — require
`profile/` to be a directory and `firefox/` to contain the
`firefox.exe` binary.  The guard is disarmed only on full success, so
the two later failures destroy the directory. -/
def resume_session (fs : SessionFs) (session_id : String) : ResumeOutcome :=
  if ¬validate_session_id session_id then
    { result := .error { session_id := session_id, kind := .InvalidId }
      destroyed := false }
  else if ¬fs.isDir [session_id] then
    { result := .error { session_id := session_id, kind := .DoesNotExist }
      destroyed := false }
  else if ¬fs.isDir [session_id, "profile"] then
    { result := .error { session_id := session_id, kind := .MissingProfile }
      destroyed := true }
  else if ¬(fs.isDir [session_id, "firefox"] && fs.isFile [session_id, "firefox", "firefox.exe"]) then
    { result := .error { session_id := session_id, kind := .MissingFirefox }
      destroyed := true }
  else
    { result := .ok { id := session_id, path := [session_id] }
      destroyed := false }

/-- The result of one `create_dir(&path)` attempt inside
`DefaultSessionManager::new_session`: success, an `AlreadyExists`
collision, or any other `io::Error` (carried as its display string). -/
inductive MkdirOutcome where
  | ok
  | alreadyExists
  | ioError (msg : String)
deriving DecidableEq, Repr

/-- Source `TRIES` (`fxrunner/src/lib/session.rs`, `new_session`). -/
def TRIES : Nat := 30

/-- The retry loop of `DefaultSessionManager::new_session`
(`fxrunner/src/lib/session.rs`): attempt `i` generates the fresh random
ID `ids i` and tries to create its directory; a collision retries with
the next ID, any other filesystem error aborts, and exhausting the fuel
yields `TooManyAttempts`. -/
def newSessionLoop (root : List String) (ids : Nat → String)
    (mkdir : Nat → MkdirOutcome) : Nat → Nat → Except NewSessionError SessionInfo
  | _, 0 => .error (.TooManyAttempts TRIES)
  | i, fuel + 1 =>
    match mkdir i with
    | .ok => .ok { id := ids i, path := root ++ [ids i] }
    | .alreadyExists => newSessionLoop root ids mkdir (i + 1) fuel
    | .ioError m => .error (.Io m)

/-- Source `DefaultSessionManager::new_session`
(`fxrunner/src/lib/session.rs`): run the retry loop for up to `TRIES`
attempts.  `ids` is the stream of generated random IDs, `mkdir` the
filesystem's response to each attempt. -/
def new_session (root : List String) (ids : Nat → String)
    (mkdir : Nat → MkdirOutcome) : Except NewSessionError SessionInfo :=
  newSessionLoop root ids mkdir 0 TRIES

/-! ## Worker messages

Modelled from the spec: the message catalogue module defining the
current worker message content types (`NewSessionAck`/
`NewSessionResponse`, `DisableUpdates`, `CreateProfile`, `Restarting`,
`ResumeAck`/`ResumeResponse`, `WaitForIdle`, and the `Session` request
wrapper) is not among the provided sources (the provided
`libfxrecord/src/net/message.rs` is an earlier revision defining only
`DownloadBuild`, `RecvProfile`, `CreateProfile`, `WritePrefs`,
`Restarting`, `ResumeResponse` and `WaitForIdle`, plus `DownloadStatus`
and the message/kind macro).  The variants below follow spec §4.2: one
variant per phase acknowledgement, each carrying a `Result` whose error
side is the `ErrorMessage` display string. -/

deriving instance DecidableEq for Except

/-- A worker-to-recorder phase acknowledgement (spec §4.2 and the
`impl_message!` catalogue of `libfxrecord/src/net/message.rs`). -/
inductive WorkerMsg where
  | NewSessionResponse (session_id : Except String String)
  | DownloadBuild (result : Except String DownloadStatus)
  | DisableUpdates (result : Except String Unit)
  | RecvProfile (result : Except String DownloadStatus)
  | CreateProfile (result : Except String Unit)
  | WritePrefs (result : Except String Unit)
  | Restarting (result : Except String Unit)
  | ResumeResponse (result : Except String Unit)
  | WaitForIdle (result : Except String Unit)
deriving DecidableEq, Repr

/-- The kind tag of a worker message (one unit variant per message, as
generated by `impl_message!`). -/
inductive WorkerMsgKind where
  | NewSessionResponse
  | DownloadBuild
  | DisableUpdates
  | RecvProfile
  | CreateProfile
  | WritePrefs
  | Restarting
  | ResumeResponse
  | WaitForIdle
deriving DecidableEq, Repr

/-- Source `Message::kind` for worker messages. -/
def WorkerMsg.kind : WorkerMsg → WorkerMsgKind
  | .NewSessionResponse _ => .NewSessionResponse
  | .DownloadBuild _ => .DownloadBuild
  | .DisableUpdates _ => .DisableUpdates
  | .RecvProfile _ => .RecvProfile
  | .CreateProfile _ => .CreateProfile
  | .WritePrefs _ => .WritePrefs
  | .Restarting _ => .Restarting
  | .ResumeResponse _ => .ResumeResponse
  | .WaitForIdle _ => .WaitForIdle

/-- Whether a worker message is an error-carrying acknowledgement. -/
def WorkerMsg.isErr : WorkerMsg → Bool
  | .NewSessionResponse (.error _) => true
  | .DownloadBuild (.error _) => true
  | .DisableUpdates (.error _) => true
  | .RecvProfile (.error _) => true
  | .CreateProfile (.error _) => true
  | .WritePrefs (.error _) => true
  | .Restarting (.error _) => true
  | .ResumeResponse (.error _) => true
  | .WaitForIdle (.error _) => true
  | _ => false

/-! ## Runner state machine (`fxrunner/src/lib/proto.rs`) -/

/-- Source `RunnerProtoError` (`fxrunner/src/lib/proto.rs`).  Errors of the
external collaborators (Taskcluster, the shutdown provider, `io::Error`
values reaching the `Proto` wrapper, zip extraction) are carried as
their display strings. -/
inductive RunnerProtoError where
  | EmptyProfile
  | MissingFirefox
  | ProtoIo (msg : String)
  | Shutdown (msg : String)
  | DisableUpdatesErr (msg : String)
  | Taskcluster (msg : String)
  | WaitForIdleErr (e : WaitForIdleError)
  | Zip (msg : String)
  | NewSession (e : NewSessionError)
  | ResumeSession (e : ResumeSessionError)
  | EnsureProfile (msg : String)
deriving DecidableEq, Repr

/-- The display string of a `RunnerProtoError` (its `thiserror`
attributes; most variants are transparent). -/
def RunnerProtoError.message : RunnerProtoError → String
  | .EmptyProfile => "An empty profile was received"
  | .MissingFirefox => "No firefox.exe in build artifact"
  | .ProtoIo m => m
  | .Shutdown m => m
  | .DisableUpdatesErr m => "Could not disable updates: " ++ m
  | .Taskcluster m => m
  | .WaitForIdleErr e => e.message
  | .Zip m => m
  | .NewSession e => e.message
  | .ResumeSession e => e.message
  | .EnsureProfile m => m

/-- Source `NewSessionRequest` (spec §4.2): the recorder's request for a new
session. -/
structure NewSessionRequest where
  build_task_id : String
  profile_size : Option Nat
  prefs : List (String × PrefValue)

/-- The environment of one `handle_new_session` run: the outcome of
every external operation the handler performs, in program order.
Errors are carried as the display strings that `into_error_message`
would produce from the originating error. -/
structure NewSessionEnv where
  /-- Source `session_manager.new_session()`; `ok` carries the generated ID. -/
  newSessionResult : Except NewSessionError String
  /-- Source `tc.download_build_artifact(task_id, path)`. -/
  fetchBuildResult : Except String Unit
  /-- Source `unzip(&download_path, &download_dir)` for the build archive (the
  statistics are discarded by the source). -/
  buildUnzipResult : Except String Unit
  /-- Whether `firefox/firefox.exe` exists in the extracted tree. -/
  firefoxBinPresent : Bool
  /-- Source `disable_updates(...)`; the underlying `io::Error` string. -/
  disableUpdatesResult : Except String Unit
  /-- Source `recv_profile_raw(...)`: reading `profile_size` raw bytes into
  `profile.zip`. -/
  recvRawResult : Except String Unit
  /-- Source `unzip(&zip_path, &unzip_path)` for the profile archive. -/
  profileUnzipResult : Except String ZipStats
  /-- Source `rename(unzipped_profile_dir, profile_dir)`. -/
  renameResult : Except String Unit
  /-- Source `session_manager.ensure_valid_profile_dir(...)`. -/
  ensureProfileResult : Except String Unit
  /-- Opening `user.js` for append-create. -/
  prefsOpenResult : Except String Unit
  /-- Source `write_prefs(&mut f, ...)`. -/
  prefsWriteResult : Except String Unit
  /-- Source `shutdown_handler.initiate_restart(...)`. -/
  restartResult : Except String Unit

/-- The observable outcome of one worker handler run: the ordered trace
of sent acknowledgements, the handler's result, whether a session
cleanup guard was armed, and whether it ran on return (destroying the
session directory). -/
structure HandlerOutcome where
  trace : List WorkerMsg
  result : Except RunnerProtoError Unit
  guardArmed : Bool
  sessionDestroyed : Bool
deriving DecidableEq, Repr

/-- Source `RunnerProto::download_build` (`fxrunner/src/lib/proto.rs`): emit
`DownloadBuild{Ok(Downloading)}`, fetch the artifact, emit
`DownloadBuild{Ok(Downloaded)}`, extract it, require
`firefox/firefox.exe`, and emit `DownloadBuild{Ok(Extracted)}`; each
failure is acknowledged with `DownloadBuild{Err}` before returning. -/
def download_build (env : NewSessionEnv) :
    List WorkerMsg × Except RunnerProtoError Unit :=
  let t := [WorkerMsg.DownloadBuild (.ok .Downloading)]
  match env.fetchBuildResult with
  | .error e => (t ++ [.DownloadBuild (.error e)], .error (.Taskcluster e))
  | .ok () =>
    let t := t ++ [WorkerMsg.DownloadBuild (.ok .Downloaded)]
    match env.buildUnzipResult with
    | .error e => (t ++ [.DownloadBuild (.error e)], .error (.Zip e))
    | .ok () =>
      if env.firefoxBinPresent then
        (t ++ [WorkerMsg.DownloadBuild (.ok .Extracted)], .ok ())
      else
        (t ++ [.DownloadBuild (.error RunnerProtoError.MissingFirefox.message)],
          .error .MissingFirefox)

/-- Source `RunnerProto::recv_profile` (`fxrunner/src/lib/proto.rs`): emit
`RecvProfile{Ok(Downloading)}`, receive the raw profile bytes, emit
`RecvProfile{Ok(Downloaded)}`, extract, reject an archive that
extracted zero files, rename the profile into place, and emit
`RecvProfile{Ok(Extracted)}`.  Note the raw-receive failure path: the
source (proto.rs line 357) acknowledges it with a `DownloadBuild`
message, not a `RecvProfile` one. -/
def recv_profile (env : NewSessionEnv) :
    List WorkerMsg × Except RunnerProtoError Unit :=
  let t := [WorkerMsg.RecvProfile (.ok .Downloading)]
  match env.recvRawResult with
  | .error e => (t ++ [.DownloadBuild (.error e)], .error (.ProtoIo e))
  | .ok () =>
    let t := t ++ [WorkerMsg.RecvProfile (.ok .Downloaded)]
    match env.profileUnzipResult with
    | .error e => (t ++ [.RecvProfile (.error e)], .error (.Zip e))
    | .ok stats =>
      if stats.extracted = 0 then
        (t ++ [.RecvProfile (.error RunnerProtoError.EmptyProfile.message)],
          .error .EmptyProfile)
      else
        match env.renameResult with
        | .error e => (t ++ [.RecvProfile (.error e)], .error (.ProtoIo e))
        | .ok () => (t ++ [WorkerMsg.RecvProfile (.ok .Extracted)], .ok ())

/-- Source `RunnerProto::handle_new_session` (`fxrunner/src/lib/proto.rs`):
allocate a session (arming a cleanup guard on success), run the
download, disable-updates, profile, prefs and restart phases in order,
and disarm the guard only after `Restarting{Ok}` has been sent.  Every
failure is acknowledged in the trace before the handler returns with
the guard still armed. -/
def handle_new_session (req : NewSessionRequest) (env : NewSessionEnv) :
    HandlerOutcome :=
  match env.newSessionResult with
  | .error e =>
    { trace := [.NewSessionResponse (.error e.message)]
      result := .error (.NewSession e)
      guardArmed := false
      sessionDestroyed := false }
  | .ok id =>
    let t := [WorkerMsg.NewSessionResponse (.ok id)]
    let db := download_build env
    match db.2 with
    | .error e => ⟨t ++ db.1, .error e, true, true⟩
    | .ok () =>
      let t := t ++ db.1
      match env.disableUpdatesResult with
      | .error e =>
        ⟨t ++ [.DisableUpdates (.error ("Could not disable updates: " ++ e))],
          .error (.DisableUpdatesErr e), true, true⟩
      | .ok () =>
        let t := t ++ [WorkerMsg.DisableUpdates (.ok ())]
        let profilePhase : List WorkerMsg × Except RunnerProtoError Unit :=
          match req.profile_size with
          | some _ => recv_profile env
          | none =>
            match env.ensureProfileResult with
            | .error e =>
              ([.CreateProfile (.error e)], .error (.EnsureProfile e))
            | .ok () => ([.CreateProfile (.ok ())], .ok ())
        match profilePhase.2 with
        | .error e => ⟨t ++ profilePhase.1, .error e, true, true⟩
        | .ok () =>
          let t := t ++ profilePhase.1
          let prefsPhase : List WorkerMsg × Except RunnerProtoError Unit :=
            if req.prefs.isEmpty then ([], .ok ())
            else
              match env.prefsOpenResult with
              | .error e => ([.WritePrefs (.error e)], .error (.ProtoIo e))
              | .ok () =>
                match env.prefsWriteResult with
                | .error e => ([.WritePrefs (.error e)], .error (.ProtoIo e))
                | .ok () => ([], .ok ())
          match prefsPhase.2 with
          | .error e => ⟨t ++ prefsPhase.1, .error e, true, true⟩
          | .ok () =>
            let t := t ++ prefsPhase.1 ++ [WorkerMsg.WritePrefs (.ok ())]
            match env.restartResult with
            | .error e =>
              ⟨t ++ [.Restarting (.error e)], .error (.Shutdown e), true, true⟩
            | .ok () =>
              ⟨t ++ [WorkerMsg.Restarting (.ok ())], .ok (), true, false⟩

/-- Source `ResumeSessionRequest` (spec §4.2). -/
structure ResumeSessionRequest where
  session_id : String
  idle : Idle

/-- The environment of one `handle_resume_session` run. -/
structure ResumeEnv where
  /-- Source `session_manager.resume_session(&request.session_id)`. -/
  resumeResult : Except ResumeSessionError Unit
  /-- Source `cpu_and_disk_idle(&self.perf_provider)`. -/
  idleResult : Except WaitForIdleError Unit

/-- Source `RunnerProto::handle_resume_session` (`fxrunner/src/lib/proto.rs`):
validate the session, arm a cleanup guard, acknowledge, optionally wait
for idle.  The guard is bound to `_cleanup` and is never disarmed, so
it runs on every return path — including the successful one. -/
def handle_resume_session (req : ResumeSessionRequest) (env : ResumeEnv) :
    HandlerOutcome :=
  match env.resumeResult with
  | .error e =>
    { trace := [.ResumeResponse (.error e.message)]
      result := .error (.ResumeSession e)
      guardArmed := false
      sessionDestroyed := false }
  | .ok () =>
    let t := [WorkerMsg.ResumeResponse (.ok ())]
    if req.idle = Idle.Wait then
      match env.idleResult with
      | .error e =>
        ⟨t ++ [.WaitForIdle (.error e.message)], .error (.WaitForIdleErr e),
          true, true⟩
      | .ok () => ⟨t ++ [WorkerMsg.WaitForIdle (.ok ())], .ok (), true, true⟩
    else
      ⟨t, .ok (), true, true⟩

/-! ## Recorder protocol client (`fxrecorder/src/lib/proto.rs`) -/

/-- Source `RecorderProtoError` (`fxrecorder/src/lib/proto.rs`), restricted to
the shapes the embedded loops produce: a transport error when the
expected message never arrives, a relayed foreign error string, and the
`RecvProfileMismatch{expected, received}` sequence error. -/
inductive RecorderProtoError where
  | EndOfStream
  | Foreign (msg : String)
  | RecvProfileMismatch (expected received : DownloadStatus)
deriving DecidableEq, Repr

/-- The `DownloadBuild` consumption loop of `RecorderProto::new_session`
(`fxrecorder/src/lib/proto.rs` lines 72-94): log `Downloading` and
`Downloaded`, stop at `Extracted`, and fail on an `Err` payload.  The
input is the stream of `DownloadBuild` results the runner sends; the
value returned is the unconsumed remainder of the stream. -/
def downloadBuildLoop :
    List (Except String DownloadStatus) →
      Except RecorderProtoError (List (Except String DownloadStatus))
  | [] => .error .EndOfStream
  | .error e :: _ => .error (.Foreign e)
  | .ok .Extracted :: rest => .ok rest
  | .ok _ :: rest => downloadBuildLoop rest

/-- The status loop of `RecorderProto::send_profile`
(`fxrecorder/src/lib/proto.rs` lines 246-275): after `Downloading` has
been consumed, each further `RecvProfile` status must be exactly
`state.next()`, otherwise the loop fails with `RecvProfileMismatch`.
The `state.next() = none` branch is unreachable (the loop breaks at
`Extracted`); it is mapped to a transport error. -/
def sendProfileLoop :
    DownloadStatus → List (Except String DownloadStatus) →
      Except RecorderProtoError Unit
  | _, [] => .error .EndOfStream
  | _, .error e :: _ => .error (.Foreign e)
  | state, .ok next_state :: rest =>
    match state.next with
    | none => .error .EndOfStream
    | some expected =>
      if expected ≠ next_state then
        .error (.RecvProfileMismatch expected next_state)
      else
        match next_state with
        | .Extracted => .ok ()
        | _ => sendProfileLoop next_state rest

/-- Source `RecorderProto::send_profile` (`fxrecorder/src/lib/proto.rs`): the
first `RecvProfile` status must be `Downloading` (anything else is a
`RecvProfileMismatch` with expected `Downloading`); the raw bytes are
then streamed (not modelled — the input stream continues past it), and
the remaining statuses must follow the `next()` order up to
`Extracted`. -/
def send_profile (msgs : List (Except String DownloadStatus)) :
    Except RecorderProtoError Unit :=
  match msgs with
  | [] => .error .EndOfStream
  | .error e :: _ => .error (.Foreign e)
  | .ok .Downloading :: rest => sendProfileLoop .Downloading rest
  | .ok s :: _ => .error (.RecvProfileMismatch .Downloading s)

/-- A fully successful `handle_new_session` environment, the base point
of the concrete evaluations below.  The session ID is an arbitrary
32-character alphanumeric string. -/
def envAllOk : NewSessionEnv where
  newSessionResult := .ok "pvCeBl3E08WijTRMfrOSGbnpTj4ZQLwP"
  fetchBuildResult := .ok ()
  buildUnzipResult := .ok ()
  firefoxBinPresent := true
  disableUpdatesResult := .ok ()
  recvRawResult := .ok ()
  profileUnzipResult := .ok { extracted := 3, top_level_dir := none }
  renameResult := .ok ()
  ensureProfileResult := .ok ()
  prefsOpenResult := .ok ()
  prefsWriteResult := .ok ()
  restartResult := .ok ()

/-! ## Helper lemmas -/

/-- The extraction loop adds exactly one to the file count per
non-directory entry; the `top_level_dir` bookkeeping never touches the
count. -/
theorem unzipLoop_extracted (es : List ZipEntry) : ∀ (i : Nat) (s : ZipStats),
    (unzipLoop es i s).extracted =
      s.extracted + (es.filter fun e => !e.isDir).length := by
  induction es with
  | nil => intro i s; simp [unzipLoop]
  | cons e rest ih =>
    intro i s
    by_cases hi : i = 0 <;> cases htl : s.top_level_dir <;> cases he : e.isDir <;>
      simp [unzipLoop, hi, htl, he, ih, List.filter_cons] <;> omega

/-- Skipping collision attempts: the `new_session` retry loop started
at attempt `i` with `k` leading collisions behaves as dictated by the
outcome of attempt `i + k`. -/
theorem newSessionLoop_ok (root : List String) (ids : Nat → String)
    (mkdir : Nat → MkdirOutcome) :
    ∀ (k i fuel : Nat), k < fuel →
      (∀ j, j < k → mkdir (i + j) = .alreadyExists) →
      mkdir (i + k) = .ok →
      newSessionLoop root ids mkdir i fuel =
        .ok { id := ids (i + k), path := root ++ [ids (i + k)] } := by
  intro k
  induction k with
  | zero =>
    intro i fuel hk _ hok
    cases fuel with
    | zero => omega
    | succ f =>
      rw [Nat.add_zero] at hok
      simp [newSessionLoop, hok]
  | succ k ih =>
    intro i fuel hk hcol hok
    cases fuel with
    | zero => omega
    | succ f =>
      have h0 : mkdir i = .alreadyExists := by
        have := hcol 0 (by omega); simpa using this
      rw [show i + (k + 1) = (i + 1) + k by omega] at hok ⊢
      simp only [newSessionLoop, h0]
      exact ih (i + 1) f (by omega)
        (fun j hj => by
          have := hcol (j + 1) (by omega)
          rwa [show i + (j + 1) = (i + 1) + j by omega] at this)
        hok

/-- The retry loop returns `TooManyAttempts` when every attempt within
its fuel collides. -/
theorem newSessionLoop_timeout (root : List String) (ids : Nat → String)
    (mkdir : Nat → MkdirOutcome) :
    ∀ (fuel i : Nat), (∀ j, j < fuel → mkdir (i + j) = .alreadyExists) →
      newSessionLoop root ids mkdir i fuel = .error (.TooManyAttempts TRIES) := by
  intro fuel
  induction fuel with
  | zero => intro i _; rfl
  | succ f ih =>
    intro i h
    have h0 : mkdir i = .alreadyExists := by simpa using h 0 (by omega)
    simp only [newSessionLoop, h0]
    exact ih (i + 1) fun j hj => by
      have := h (j + 1) (by omega)
      rwa [show i + (j + 1) = (i + 1) + j by omega] at this

/-- The retry loop aborts with `Io` at the first non-collision
filesystem failure. -/
theorem newSessionLoop_io (root : List String) (ids : Nat → String)
    (mkdir : Nat → MkdirOutcome) (m : String) :
    ∀ (k i fuel : Nat), k < fuel →
      (∀ j, j < k → mkdir (i + j) = .alreadyExists) →
      mkdir (i + k) = .ioError m →
      newSessionLoop root ids mkdir i fuel = .error (.Io m) := by
  intro k
  induction k with
  | zero =>
    intro i fuel hk _ hio
    cases fuel with
    | zero => omega
    | succ f =>
      rw [Nat.add_zero] at hio
      simp [newSessionLoop, hio]
  | succ k ih =>
    intro i fuel hk hcol hio
    cases fuel with
    | zero => omega
    | succ f =>
      have h0 : mkdir i = .alreadyExists := by
        have := hcol 0 (by omega); simpa using this
      rw [show i + (k + 1) = (i + 1) + k by omega] at hio
      simp only [newSessionLoop, h0]
      exact ih (i + 1) f (by omega)
        (fun j hj => by
          have := hcol (j + 1) (by omega)
          rwa [show i + (j + 1) = (i + 1) + j by omega] at this)
        hio

/-! ## Claim C9 -/

/-- Claim C9: `unzip` increments `stats.extracted` only for regular-file
entries and skips directory entries (the count equals the number of
non-directory entries); hence an archive whose entries are all
directories yields `extracted = 0`, and the worker's profile-receive
phase rejects such an archive as an empty profile, acknowledging
`RecvProfile{Err}` and returning `EmptyProfile`. -/
theorem c9_unzip_dir_entries_only (entries : List ZipEntry) (env : NewSessionEnv)
    (hdirs : ∀ e ∈ entries, e.isDir = true)
    (hraw : env.recvRawResult = .ok ())
    (hunzip : env.profileUnzipResult = .ok (unzip entries)) :
    (∀ es : List ZipEntry,
      (unzip es).extracted = (es.filter fun e => !e.isDir).length) ∧
    (unzip entries).extracted = 0 ∧
    recv_profile env =
      ([.RecvProfile (.ok .Downloading), .RecvProfile (.ok .Downloaded),
        .RecvProfile (.error "An empty profile was received")],
        .error .EmptyProfile) := by
  have hcount : ∀ es : List ZipEntry,
      (unzip es).extracted = (es.filter fun e => !e.isDir).length := by
    intro es
    simpa using unzipLoop_extracted es 0 { extracted := 0, top_level_dir := none }
  have hzero : (unzip entries).extracted = 0 := by
    rw [hcount]
    simp only [List.length_eq_zero, List.filter_eq_nil_iff]
    intro e he
    simp [hdirs e he]
  refine ⟨hcount, hzero, ?_⟩
  simp [recv_profile, hraw, hunzip, hzero, RunnerProtoError.message]

/-- Claim C9, witness: A concrete archive with a single directory entry
is extracted to zero files and rejected as an empty profile. -/
theorem c9_witness :
    recv_profile
        { envAllOk with
          profileUnzipResult := .ok (unzip [{ name := ["p"], isDir := true }]) } =
      ([.RecvProfile (.ok .Downloading), .RecvProfile (.ok .Downloaded),
        .RecvProfile (.error "An empty profile was received")],
        .error .EmptyProfile) :=
  (c9_unzip_dir_entries_only [{ name := ["p"], isDir := true }] _
    (by decide) rfl rfl).2.2

/-! ## Claim C7 -/

/-- Claim C7, counterexample: The claim states that the `SessionInfo`
returned by a successful `create()` has an empty path.  In the code
(`session.rs` lines 88-103) the returned path is `<root>/<id>`: with
the session root `["sessions"]` and a first attempt that succeeds, the
returned path is `["sessions", <id>]`, which is not empty. -/
theorem c7_counterexample :
    new_session ["sessions"] (fun _ => "aaaaaaaaaaaaaaaaaaaaaaaaaaaaaaaa")
        (fun _ => .ok) =
      .ok { id := "aaaaaaaaaaaaaaaaaaaaaaaaaaaaaaaa"
            path := ["sessions", "aaaaaaaaaaaaaaaaaaaaaaaaaaaaaaaa"] } ∧
    (["sessions", "aaaaaaaaaaaaaaaaaaaaaaaaaaaaaaaa"] : List String) ≠ [] := by
  constructor
  · rfl
  · decide

/-- Claim C7, amended: `create()` draws a fresh random ID per attempt and
retries on directory collision, for up to `TRIES = 30` attempts in
total: if the first `k` attempts collide and attempt `k` succeeds, the
result is `SessionInfo{id = ids k, path = <root>/<ids k>}` (not an
empty path); a non-collision filesystem failure aborts with
`NewSessionError::Io`; thirty collisions abort with
`NewSessionError::TooManyAttempts(30)`. -/
theorem c7_create_amended (root : List String) (ids : Nat → String)
    (mkdir : Nat → MkdirOutcome) (k : Nat) (m : String)
    (hcol : ∀ j, j < k → mkdir j = .alreadyExists) (hk : k < TRIES) :
    (mkdir k = .ok →
      new_session root ids mkdir =
        .ok { id := ids k, path := root ++ [ids k] } ∧ root ++ [ids k] ≠ []) ∧
    (mkdir k = .ioError m → new_session root ids mkdir = .error (.Io m)) ∧
    ((∀ j, j < TRIES → mkdir j = .alreadyExists) →
      new_session root ids mkdir = .error (.TooManyAttempts TRIES)) ∧
    TRIES = 30 := by
  refine ⟨fun hok => ⟨?_, by simp⟩, fun hio => ?_, fun hall => ?_, rfl⟩
  · simpa using newSessionLoop_ok root ids mkdir k 0 TRIES hk
      (fun j hj => by simpa using hcol j hj) (by simpa using hok)
  · simpa using newSessionLoop_io root ids mkdir m k 0 TRIES hk
      (fun j hj => by simpa using hcol j hj) (by simpa using hio)
  · simpa using newSessionLoop_timeout root ids mkdir TRIES 0
      (fun j hj => by simpa using hall j hj)

/-- Claim C7, amended, witness: With one collision on the first attempt
and success on the second, `create()` returns the second generated ID
with path `<root>/<id>`. -/
theorem c7_create_amended_witness :
    new_session ["sessions"] (fun j => if j = 0 then "cOLL" else "fresh")
        (fun j => if j = 0 then .alreadyExists else .ok) =
      .ok { id := "fresh", path := ["sessions", "fresh"] } ∧
    (["sessions", "fresh"] : List String) ≠ [] :=
  (c7_create_amended ["sessions"] (fun j => if j = 0 then "cOLL" else "fresh")
    (fun j => if j = 0 then .alreadyExists else .ok) 1 "unused"
    (fun j hj => by
      have : j = 0 := by omega
      subst this; rfl)
    (by decide)).1 rfl

/-! ## Claim C3 -/

/-- The controller's `DownloadBuild` loop silently consumes any `Ok`
status other than `Extracted`, in any order and multiplicity. -/
theorem downloadBuildLoop_skips (pre : List (Except String DownloadStatus))
    (hpre : ∀ m ∈ pre, ∃ s, m = .ok s ∧ s ≠ DownloadStatus.Extracted) :
    ∀ tail, downloadBuildLoop (pre ++ tail) = downloadBuildLoop tail := by
  induction pre with
  | nil => intro tail; rfl
  | cons m pre ih =>
    intro tail
    obtain ⟨s, rfl, hs⟩ := hpre (m := m) (by simp)
    have ih' := ih (fun m hm => hpre m (by simp [hm])) tail
    cases s with
    | Extracted => exact absurd rfl hs
    | Downloading => simpa [downloadBuildLoop] using ih'
    | Downloaded => simpa [downloadBuildLoop] using ih'

/-- Claim C3, counterexample: The claim states that the controller's
`new_session` raises a sequence-mismatch error on any out-of-order
`DownloadBuild` statuses.  In the code (`fxrecorder/src/lib/proto.rs`
lines 72-94) the loop does no ordering check: the out-of-order stream
`Ok(Downloaded), Ok(Downloading), Ok(Extracted)` is consumed
successfully. -/
theorem c3_counterexample :
    downloadBuildLoop [.ok .Downloaded, .ok .Downloading, .ok .Extracted] =
      .ok ([] : List (Except String DownloadStatus)) := by
  decide

/-- Claim C3, amended: The controller's `new_session` `DownloadBuild`
loop performs no ordering check: it consumes `Ok` statuses other than
`Extracted` in any order and any number, terminates successfully at
the first `Ok(Extracted)`, fails with a foreign error on an `Err`
payload, and fails with a transport error if the stream ends first.
The strictly-increasing-sequence check exists only for the
`RecvProfile` statuses in `send_profile`, where a status other than
the expected `next()` one raises `RecvProfileMismatch{expected,
received}`. -/
theorem c3_download_order_amended
    (pre rest : List (Except String DownloadStatus)) (e : String)
    (hpre : ∀ m ∈ pre, ∃ s, m = .ok s ∧ s ≠ DownloadStatus.Extracted) :
    downloadBuildLoop (pre ++ .ok .Extracted :: rest) = .ok rest ∧
    downloadBuildLoop (pre ++ .error e :: rest) = .error (.Foreign e) ∧
    downloadBuildLoop pre = .error .EndOfStream ∧
    (∀ (s : DownloadStatus) (rest' : List (Except String DownloadStatus)),
      s ≠ .Downloaded →
        sendProfileLoop .Downloading (.ok s :: rest') =
          .error (.RecvProfileMismatch .Downloaded s)) ∧
    (∀ (s : DownloadStatus) (rest' : List (Except String DownloadStatus)),
      s ≠ .Extracted →
        sendProfileLoop .Downloaded (.ok s :: rest') =
          .error (.RecvProfileMismatch .Extracted s)) := by
  refine ⟨?_, ?_, ?_, ?_, ?_⟩
  · rw [downloadBuildLoop_skips pre hpre]; rfl
  · rw [downloadBuildLoop_skips pre hpre]; rfl
  · have := downloadBuildLoop_skips pre hpre []
    simpa using this
  · intro s rest' hs
    simp only [sendProfileLoop, DownloadStatus.next]
    rw [if_pos (by exact fun h => hs h.symm)]
  · intro s rest' hs
    simp only [sendProfileLoop, DownloadStatus.next]
    rw [if_pos (by exact fun h => hs h.symm)]

/-- Claim C3, amended, witness: The out-of-order prefix `Ok(Downloaded)`
is consumed without a check, while the `send_profile` loop rejects the
same repeated status with `RecvProfileMismatch`. -/
theorem c3_download_order_amended_witness :
    downloadBuildLoop [.ok .Downloaded, .ok .Extracted] =
      .ok ([] : List (Except String DownloadStatus)) ∧
    sendProfileLoop .Downloading [.ok .Downloading] =
      .error (.RecvProfileMismatch .Downloaded .Downloading) := by
  have h := c3_download_order_amended [.ok .Downloaded] [] "unused"
    (fun m hm => by
      simp at hm
      subst hm
      exact ⟨.Downloaded, rfl, by decide⟩)
  exact ⟨h.1, h.2.2.2.1 .Downloading [] (by decide)⟩

/-! ## Claim C4 -/

/-- Claim C4, counterexample: The claim states the missing-browser error
acknowledgement carries the string "No browser binary in build
artifact".  The `thiserror` attribute of
`RunnerProtoError::MissingFirefox` (`fxrunner/src/lib/proto.rs` line
479) is "No firefox.exe in build artifact": evaluated on a concrete
run whose extracted build lacks the binary, the trace carries the
latter string and never the claimed one. -/
theorem c4_counterexample :
    (handle_new_session { build_task_id := "T", profile_size := none, prefs := [] }
        { envAllOk with firefoxBinPresent := false }).trace =
      [.NewSessionResponse (.ok "pvCeBl3E08WijTRMfrOSGbnpTj4ZQLwP"),
        .DownloadBuild (.ok .Downloading), .DownloadBuild (.ok .Downloaded),
        .DownloadBuild (.error "No firefox.exe in build artifact")] ∧
    (∀ m ∈ (handle_new_session { build_task_id := "T", profile_size := none, prefs := [] }
        { envAllOk with firefoxBinPresent := false }).trace,
      m ≠ .DownloadBuild (.error "No browser binary in build artifact")) := by
  decide

/-- Claim C4, amended: When the extracted build archive lacks
`firefox/firefox.exe`, the worker emits exactly
`DownloadBuild{Ok(Downloading)}`, `DownloadBuild{Ok(Downloaded)}`,
then `DownloadBuild{Err("No firefox.exe in build artifact")}`, returns
the `MissingFirefox` error from the handler, and the session directory
is destroyed by the cleanup guard. -/
theorem c4_missing_browser_amended (req : NewSessionRequest)
    (env : NewSessionEnv) (id : String)
    (h1 : env.newSessionResult = .ok id)
    (h2 : env.fetchBuildResult = .ok ())
    (h3 : env.buildUnzipResult = .ok ())
    (h4 : env.firefoxBinPresent = false) :
    handle_new_session req env =
      { trace := [.NewSessionResponse (.ok id),
          .DownloadBuild (.ok .Downloading), .DownloadBuild (.ok .Downloaded),
          .DownloadBuild (.error "No firefox.exe in build artifact")]
        result := .error .MissingFirefox
        guardArmed := true
        sessionDestroyed := true } := by
  simp [handle_new_session, download_build, h1, h2, h3, h4,
    RunnerProtoError.message]

/-- Claim C4, amended, witness: The amended behaviour on the concrete
missing-browser environment. -/
theorem c4_missing_browser_amended_witness :
    handle_new_session { build_task_id := "T", profile_size := none, prefs := [] }
        { envAllOk with firefoxBinPresent := false } =
      { trace := [.NewSessionResponse (.ok "pvCeBl3E08WijTRMfrOSGbnpTj4ZQLwP"),
          .DownloadBuild (.ok .Downloading), .DownloadBuild (.ok .Downloaded),
          .DownloadBuild (.error "No firefox.exe in build artifact")]
        result := .error .MissingFirefox
        guardArmed := true
        sessionDestroyed := true } :=
  c4_missing_browser_amended _ _ "pvCeBl3E08WijTRMfrOSGbnpTj4ZQLwP"
    rfl rfl rfl rfl

/-! ## Claim C5 -/

/-- Claim C5, counterexample: The claim states the empty-profile error
acknowledgement carries the string "empty profile".  The `thiserror`
attribute of `RunnerProtoError::EmptyProfile`
(`fxrunner/src/lib/proto.rs` line 476) is "An empty profile was
received": evaluated on a concrete run whose profile archive extracts
zero files, the trace carries the latter string and never the claimed
one. -/
theorem c5_counterexample :
    (handle_new_session { build_task_id := "T", profile_size := some 4096, prefs := [] }
        { envAllOk with
          profileUnzipResult := .ok { extracted := 0, top_level_dir := none } }).trace =
      [.NewSessionResponse (.ok "pvCeBl3E08WijTRMfrOSGbnpTj4ZQLwP"),
        .DownloadBuild (.ok .Downloading), .DownloadBuild (.ok .Downloaded),
        .DownloadBuild (.ok .Extracted), .DisableUpdates (.ok ()),
        .RecvProfile (.ok .Downloading), .RecvProfile (.ok .Downloaded),
        .RecvProfile (.error "An empty profile was received")] ∧
    (∀ m ∈ (handle_new_session { build_task_id := "T", profile_size := some 4096, prefs := [] }
        { envAllOk with
          profileUnzipResult := .ok { extracted := 0, top_level_dir := none } }).trace,
      m ≠ .RecvProfile (.error "empty profile")) := by
  decide

/-- Claim C5, amended: When a profile of the declared size is received
but its archive extracts zero files, the worker emits
`RecvProfile{Ok(Downloading)}`, `RecvProfile{Ok(Downloaded)}`, then
`RecvProfile{Err("An empty profile was received")}`, returns the
`EmptyProfile` error from the handler, and the session directory is
destroyed by the cleanup guard. -/
theorem c5_empty_profile_amended (req : NewSessionRequest)
    (env : NewSessionEnv) (id : String) (n : Nat) (stats : ZipStats)
    (hreq : req.profile_size = some n)
    (h1 : env.newSessionResult = .ok id)
    (h2 : env.fetchBuildResult = .ok ())
    (h3 : env.buildUnzipResult = .ok ())
    (h4 : env.firefoxBinPresent = true)
    (h5 : env.disableUpdatesResult = .ok ())
    (h6 : env.recvRawResult = .ok ())
    (h7 : env.profileUnzipResult = .ok stats)
    (h8 : stats.extracted = 0) :
    handle_new_session req env =
      { trace := [.NewSessionResponse (.ok id),
          .DownloadBuild (.ok .Downloading), .DownloadBuild (.ok .Downloaded),
          .DownloadBuild (.ok .Extracted), .DisableUpdates (.ok ()),
          .RecvProfile (.ok .Downloading), .RecvProfile (.ok .Downloaded),
          .RecvProfile (.error "An empty profile was received")]
        result := .error .EmptyProfile
        guardArmed := true
        sessionDestroyed := true } := by
  simp [handle_new_session, download_build, recv_profile, hreq, h1, h2, h3,
    h4, h5, h6, h7, h8, RunnerProtoError.message]

/-- Claim C5, amended, witness: The amended behaviour on the concrete
empty-profile environment. -/
theorem c5_empty_profile_amended_witness :
    handle_new_session { build_task_id := "T", profile_size := some 4096, prefs := [] }
        { envAllOk with
          profileUnzipResult := .ok { extracted := 0, top_level_dir := none } } =
      { trace := [.NewSessionResponse (.ok "pvCeBl3E08WijTRMfrOSGbnpTj4ZQLwP"),
          .DownloadBuild (.ok .Downloading), .DownloadBuild (.ok .Downloaded),
          .DownloadBuild (.ok .Extracted), .DisableUpdates (.ok ()),
          .RecvProfile (.ok .Downloading), .RecvProfile (.ok .Downloaded),
          .RecvProfile (.error "An empty profile was received")]
        result := .error .EmptyProfile
        guardArmed := true
        sessionDestroyed := true } :=
  c5_empty_profile_amended _ _ "pvCeBl3E08WijTRMfrOSGbnpTj4ZQLwP" 4096
    { extracted := 0, top_level_dir := none } rfl rfl rfl rfl rfl rfl rfl rfl rfl

/-! ## Claim C2 -/

/-- Claim C2: The failing input for the phase-acknowledgement discipline:
a new session with a declared profile size in which reading the raw
profile bytes fails.  The source (`fxrunner/src/lib/proto.rs` line
357) acknowledges this `RecvProfile`-phase error with a
`DownloadBuild{Err}` message: the emitted error acknowledgement has
kind `DownloadBuild`, and no `RecvProfile` acknowledgement in the
trace carries an error, contradicting the claim that an error while
receiving the raw profile bytes is reported in a `RecvProfile`
acknowledgement. -/
theorem c2_recv_profile_wrong_phase_ack :
    (handle_new_session { build_task_id := "T", profile_size := some 4096, prefs := [] }
        { envAllOk with recvRawResult := .error "connection reset by peer" }) =
      { trace := [.NewSessionResponse (.ok "pvCeBl3E08WijTRMfrOSGbnpTj4ZQLwP"),
          .DownloadBuild (.ok .Downloading), .DownloadBuild (.ok .Downloaded),
          .DownloadBuild (.ok .Extracted), .DisableUpdates (.ok ()),
          .RecvProfile (.ok .Downloading),
          .DownloadBuild (.error "connection reset by peer")]
        result := .error (.ProtoIo "connection reset by peer")
        guardArmed := true
        sessionDestroyed := true } ∧
    (∀ m ∈ (handle_new_session { build_task_id := "T", profile_size := some 4096, prefs := [] }
        { envAllOk with recvRawResult := .error "connection reset by peer" }).trace,
      m.isErr = true → m.kind = .DownloadBuild) ∧
    (∀ m ∈ (handle_new_session { build_task_id := "T", profile_size := some 4096, prefs := [] }
        { envAllOk with recvRawResult := .error "connection reset by peer" }).trace,
      m.kind = .RecvProfile → m.isErr = false) := by
  decide

/-! ## Claim C1 -/

/-- Claim C1, counterexample: The claim states the session directory is
preserved on the successful end of `resume-session`.  In the code
(`fxrunner/src/lib/proto.rs` line 213) the resume handler's cleanup
guard is bound to `_cleanup` and never disarmed, so it runs on every
return path: on a concrete successful resume the handler returns `Ok`
and the session directory is nevertheless destroyed. -/
theorem c1_counterexample :
    (handle_resume_session { session_id := "a", idle := .Skip }
        { resumeResult := .ok (), idleResult := .ok () }).result = .ok () ∧
    (handle_resume_session { session_id := "a", idle := .Skip }
        { resumeResult := .ok (), idleResult := .ok () }).sessionDestroyed = true := by
  decide

/-- Claim C1, amended: The session directory is destroyed on every
return path of the worker handlers except the restart-success return
of `new-session` (after `Restarting{Ok}` is sent and the cleanup guard
is disarmed): in `handle_new_session` the directory survives exactly
when no session was allocated (nothing to destroy) or the handler
returns successfully; in `handle_resume_session` the guard is never
disarmed, so the directory is destroyed whenever the session
validated — even on the successful return path. -/
theorem c1_cleanup_amended (reqN : NewSessionRequest) (envN : NewSessionEnv)
    (reqR : ResumeSessionRequest) (envR : ResumeEnv) :
    ((handle_new_session reqN envN).sessionDestroyed = false ↔
      (handle_new_session reqN envN).guardArmed = false ∨
        (handle_new_session reqN envN).result = .ok ()) ∧
    ((handle_new_session reqN envN).guardArmed = true ↔
      ∃ id, envN.newSessionResult = .ok id) ∧
    ((handle_resume_session reqR envR).sessionDestroyed =
      (handle_resume_session reqR envR).guardArmed) ∧
    ((handle_resume_session reqR envR).guardArmed = true ↔
      envR.resumeResult = .ok ()) := by
  refine ⟨?_, ?_, ?_, ?_⟩
  · cases h : envN.newSessionResult with
    | error e => simp [handle_new_session, h]
    | ok id =>
      simp only [handle_new_session, h]
      repeat' split
      all_goals simp_all
  · cases h : envN.newSessionResult with
    | error e => simp [handle_new_session, h]
    | ok id =>
      simp only [handle_new_session, h]
      repeat' split
      all_goals simp_all
  · cases h : envR.resumeResult with
    | error e => simp [handle_resume_session, h]
    | ok u =>
      cases u
      simp only [handle_resume_session, h]
      repeat' split
      all_goals simp_all
  · cases h : envR.resumeResult with
    | error e => simp [handle_resume_session, h]
    | ok u =>
      cases u
      simp only [handle_resume_session, h]
      repeat' split
      all_goals simp_all

/-- Claim C1, amended, witness: a concrete resume run with idle waiting
destroys the session directory exactly when it validated. -/
theorem c1_cleanup_amended_witness :
    (handle_resume_session { session_id := "b", idle := .Wait }
        { resumeResult := .ok (), idleResult := .ok () }).sessionDestroyed =
      (handle_resume_session { session_id := "b", idle := .Wait }
        { resumeResult := .ok (), idleResult := .ok () }).guardArmed :=
  (c1_cleanup_amended { build_task_id := "T", profile_size := none, prefs := [] }
    envAllOk { session_id := "b", idle := .Wait }
    { resumeResult := .ok (), idleResult := .ok () }).2.2.1

/-! ## Claim C6 -/

/-- An ASCII-alphanumeric character occupies a single UTF-8 byte, so
for such characters the Rust byte length and the character count
agree. -/
theorem utf8Size_of_isAlphanum {c : Char} (h : c.isAlphanum = true) :
    c.utf8Size = 1 := by
  have hv : c.val ≤ 0x7F := by
    simp only [Char.isAlphanum, Char.isAlpha, Char.isDigit, Char.isUpper,
      Char.isLower, Bool.or_eq_true, Bool.and_eq_true, decide_eq_true_eq] at h
    rcases h with (⟨_, h2⟩ | ⟨_, h2⟩) | ⟨_, h2⟩ <;>
      exact UInt32.le_trans h2 (by decide)
  simp [Char.utf8Size, hv]

/-- The UTF-8 byte length of an all-alphanumeric character list equals
its length. -/
theorem utf8Len_of_all_isAlphanum (l : List Char)
    (h : l.all Char.isAlphanum = true) : String.utf8Len l = l.length := by
  induction l with
  | nil => rfl
  | cons c cs ih =>
    simp only [List.all_cons, Bool.and_eq_true] at h
    simp [utf8Size_of_isAlphanum h.1, ih h.2]

/-- Claim C6: `resume(id)` succeeds exactly when `id` is a 32-character
ASCII-alphanumeric string, `<root>/id` is a directory,
`<root>/id/profile/` is a directory and
`<root>/id/firefox/firefox.exe` is a file (under the filesystem
coherence assumption that a file's parent is a directory); the error
kinds are, in priority order, `InvalidId` (exactly for ids violating
the 32-alphanumeric-characters rule, hence for lengths 31 or 33 or a
non-alphanumeric character), `DoesNotExist`, `MissingProfile` and
`MissingFirefox`; the session directory is destroyed exactly on the
latter two validation failures, which are the failures in which a
session directory exists. -/
theorem c6_resume_validation (fs : SessionFs) (id : String)
    (hcoh : fs.isFile [id, "firefox", "firefox.exe"] = true →
      fs.isDir [id, "firefox"] = true) :
    ((resume_session fs id).result = .ok { id := id, path := [id] } ↔
      validate_session_id id = true ∧ fs.isDir [id] = true ∧
        fs.isDir [id, "profile"] = true ∧
        fs.isFile [id, "firefox", "firefox.exe"] = true) ∧
    (validate_session_id id = false →
      resume_session fs id =
        { result := .error { session_id := id, kind := .InvalidId }
          destroyed := false }) ∧
    (validate_session_id id = true → fs.isDir [id] = false →
      resume_session fs id =
        { result := .error { session_id := id, kind := .DoesNotExist }
          destroyed := false }) ∧
    (validate_session_id id = true → fs.isDir [id] = true →
      fs.isDir [id, "profile"] = false →
      resume_session fs id =
        { result := .error { session_id := id, kind := .MissingProfile }
          destroyed := true }) ∧
    (validate_session_id id = true → fs.isDir [id] = true →
      fs.isDir [id, "profile"] = true →
      fs.isFile [id, "firefox", "firefox.exe"] = false →
      resume_session fs id =
        { result := .error { session_id := id, kind := .MissingFirefox }
          destroyed := true }) ∧
    (validate_session_id id = true ↔
      id.length = REQUEST_ID_LEN ∧ id.data.all Char.isAlphanum = true) := by
  refine ⟨?_, ?_, ?_, ?_, ?_, ?_⟩
  · by_cases hv : validate_session_id id = true
    · by_cases hd : fs.isDir [id] = true
      · by_cases hp : fs.isDir [id, "profile"] = true
        · by_cases hb : fs.isFile [id, "firefox", "firefox.exe"] = true
          · have hfd := hcoh hb
            simp [resume_session, hv, hd, hp, hb, hfd]
          · simp [resume_session, hv, hd, hp, hb]
        · simp [resume_session, hv, hd, hp]
      · simp [resume_session, hv, hd]
    · simp [resume_session, hv]
  · intro hv; simp [resume_session, hv]
  · intro hv hd; simp [resume_session, hv, hd]
  · intro hv hd hp; simp [resume_session, hv, hd, hp]
  · intro hv hd hp hb; simp [resume_session, hv, hd, hp, hb]
  · obtain ⟨l⟩ := id
    simp only [validate_session_id, Bool.and_eq_true, beq_iff_eq]
    constructor
    · rintro ⟨h1, h2⟩
      refine ⟨?_, h2⟩
      have hl := utf8Len_of_all_isAlphanum l h2
      simpa [String.utf8ByteSize_mk, hl] using h1
    · rintro ⟨h1, h2⟩
      have hl := utf8Len_of_all_isAlphanum l h2
      refine ⟨?_, h2⟩
      simpa [String.utf8ByteSize_mk, hl] using h1

/-- Claim C6, witness: A concrete well-formed session directory for a
valid 32-character ID resumes successfully; the invalid 5-character ID
"short" fails with `InvalidId`; a session directory whose `profile/`
is missing fails with `MissingProfile` and is destroyed. -/
theorem c6_resume_validation_witness :
    (resume_session
        { isDir := fun p => p == ["ABCDEFGHIJKLMNOPQRSTUVWXYZabcdef"] ||
            p == ["ABCDEFGHIJKLMNOPQRSTUVWXYZabcdef", "profile"] ||
            p == ["ABCDEFGHIJKLMNOPQRSTUVWXYZabcdef", "firefox"]
          isFile := fun p =>
            p == ["ABCDEFGHIJKLMNOPQRSTUVWXYZabcdef", "firefox", "firefox.exe"] }
        "ABCDEFGHIJKLMNOPQRSTUVWXYZabcdef").result =
      .ok { id := "ABCDEFGHIJKLMNOPQRSTUVWXYZabcdef"
            path := ["ABCDEFGHIJKLMNOPQRSTUVWXYZabcdef"] } ∧
    resume_session { isDir := fun _ => false, isFile := fun _ => false }
        "short" =
      { result := .error { session_id := "short", kind := .InvalidId }
        destroyed := false } ∧
    resume_session
        { isDir := fun p => p == ["ABCDEFGHIJKLMNOPQRSTUVWXYZabcdef"]
          isFile := fun _ => false }
        "ABCDEFGHIJKLMNOPQRSTUVWXYZabcdef" =
      { result := .error { session_id := "ABCDEFGHIJKLMNOPQRSTUVWXYZabcdef"
                           kind := .MissingProfile }
        destroyed := true } := by
  refine ⟨?_, ?_, ?_⟩
  · exact (c6_resume_validation _ _ (by decide)).1.mpr
      ⟨by decide, by decide, by decide, by decide⟩
  · exact (c6_resume_validation _ _ (by decide)).2.1 (by decide)
  · exact (c6_resume_validation _ _ (by decide)).2.2.2.1
      (by decide) (by decide) (by decide)

/-! ## Claims C8 and C10 -/

/-- Under monotone counters, the loop's zero-delta test is exactly the
idleness of the sample. -/
theorem idle_condition_iff (c0 : IoCounters) (f : Nat → IoCounters)
    (g : Nat → ℚ) (j : Nat) (hm : monoAt c0 f j) :
    (TARGET_CPU_IDLE_PERCENTAGE ≤ g j ∧
      (f j).reads - (countersChain c0 f j).reads = 0 ∧
      (f j).writes - (countersChain c0 f j).writes = 0) ↔ idleAt c0 f g j := by
  obtain ⟨hm1, hm2⟩ := hm
  constructor
  · rintro ⟨h1, h2, h3⟩
    exact ⟨h1, by omega, by omega⟩
  · rintro ⟨h1, h2, h3⟩
    exact ⟨h1, by omega, by omega⟩

/-- One successful, monotone iteration of the idle loop: the loop
reduces to its zero-delta test, recursing with the new counters. -/
theorem cpuAndDiskIdleLoop_step (samples : Nat → PerfSample)
    (c0 : IoCounters) (f : Nat → IoCounters) (g : Nat → ℚ) (i fu : Nat)
    (hsi : samples i = { io := .ok (f i), cpu := .ok (g i) })
    (hmi : monoAt c0 f i) :
    cpuAndDiskIdleLoop samples (countersChain c0 f i) i (fu + 1) =
      if TARGET_CPU_IDLE_PERCENTAGE ≤ g i ∧
          (f i).reads - (countersChain c0 f i).reads = 0 ∧
          (f i).writes - (countersChain c0 f i).writes = 0 then
        some (.ok ())
      else cpuAndDiskIdleLoop samples (f i) (i + 1) fu := by
  simp only [cpuAndDiskIdleLoop, hsi, checkedSub]
  rw [if_pos hmi.1, if_pos hmi.2]

/-- Running the idle loop from iteration `i`: if the samples at
`i, …, i + d` succeed, are monotone, the first `d` of them are not
idle and sample `i + d` is idle, the loop succeeds within any fuel
exceeding `d`. -/
theorem cpuAndDiskIdleLoop_ok (samples : Nat → PerfSample) (c0 : IoCounters)
    (f : Nat → IoCounters) (g : Nat → ℚ) :
    ∀ (d i fuel : Nat), d < fuel →
      (∀ j, i ≤ j → j ≤ i + d → samples j = { io := .ok (f j), cpu := .ok (g j) }) →
      (∀ j, i ≤ j → j ≤ i + d → monoAt c0 f j) →
      (∀ j, i ≤ j → j < i + d → ¬idleAt c0 f g j) →
      idleAt c0 f g (i + d) →
      cpuAndDiskIdleLoop samples (countersChain c0 f i) i fuel = some (.ok ()) := by
  intro d
  induction d with
  | zero =>
    intro i fuel hd hs hm _ hidle
    cases fuel with
    | zero => omega
    | succ fu =>
      rw [Nat.add_zero] at hidle
      have hsi := hs i (Nat.le_refl i) (by omega)
      have hmi := hm i (Nat.le_refl i) (by omega)
      rw [cpuAndDiskIdleLoop_step samples c0 f g i fu hsi hmi]
      rw [if_pos ((idle_condition_iff c0 f g i hmi).mpr hidle)]
  | succ d ih =>
    intro i fuel hd hs hm hni hidle
    cases fuel with
    | zero => omega
    | succ fu =>
      have hsi := hs i (Nat.le_refl i) (by omega)
      have hmi := hm i (Nat.le_refl i) (by omega)
      have hnii : ¬idleAt c0 f g i := hni i (Nat.le_refl i) (by omega)
      rw [cpuAndDiskIdleLoop_step samples c0 f g i fu hsi hmi]
      rw [if_neg (fun hc => hnii ((idle_condition_iff c0 f g i hmi).mp hc))]
      have hchain : f i = countersChain c0 f (i + 1) := rfl
      rw [hchain]
      rw [show i + (d + 1) = (i + 1) + d by omega] at hidle
      exact ih (i + 1) fu (by omega)
        (fun j h1 h2 => hs j (by omega) (by omega))
        (fun j h1 h2 => hm j (by omega) (by omega))
        (fun j h1 h2 => hni j (by omega) (by omega))
        hidle

/-- Running the idle loop from iteration `i`: if every sample within
the fuel succeeds, is monotone and is not idle, the loop exhausts its
fuel and times out. -/
theorem cpuAndDiskIdleLoop_timeout (samples : Nat → PerfSample)
    (c0 : IoCounters) (f : Nat → IoCounters) (g : Nat → ℚ) :
    ∀ (fuel i : Nat),
      (∀ j, i ≤ j → j < i + fuel → samples j = { io := .ok (f j), cpu := .ok (g j) }) →
      (∀ j, i ≤ j → j < i + fuel → monoAt c0 f j) →
      (∀ j, i ≤ j → j < i + fuel → ¬idleAt c0 f g j) →
      cpuAndDiskIdleLoop samples (countersChain c0 f i) i fuel =
        some (.error .TimeoutError) := by
  intro fuel
  induction fuel with
  | zero => intro i _ _ _; rfl
  | succ fu ih =>
    intro i hs hm hni
    have hsi := hs i (Nat.le_refl i) (by omega)
    have hmi := hm i (Nat.le_refl i) (by omega)
    have hnii : ¬idleAt c0 f g i := hni i (Nat.le_refl i) (by omega)
    rw [cpuAndDiskIdleLoop_step samples c0 f g i fu hsi hmi]
    rw [if_neg (fun hc => hnii ((idle_condition_iff c0 f g i hmi).mp hc))]
    have hchain : f i = countersChain c0 f (i + 1) := rfl
    rw [hchain]
    exact ih (i + 1)
      (fun j h1 h2 => hs j (by omega) (by omega))
      (fun j h1 h2 => hm j (by omega) (by omega))
      (fun j h1 h2 => hni j (by omega) (by omega))

/-- Running the idle loop from iteration `i`: if the first `d` samples
succeed, are monotone and are not idle, and the IO sampling of sample
`i + d` fails, the loop propagates the disk sampling error. -/
theorem cpuAndDiskIdleLoop_diskErr (samples : Nat → PerfSample)
    (c0 : IoCounters) (f : Nat → IoCounters) (g : Nat → ℚ) (e : String) :
    ∀ (d i fuel : Nat), d < fuel →
      (∀ j, i ≤ j → j < i + d → samples j = { io := .ok (f j), cpu := .ok (g j) }) →
      (∀ j, i ≤ j → j < i + d → monoAt c0 f j) →
      (∀ j, i ≤ j → j < i + d → ¬idleAt c0 f g j) →
      (samples (i + d)).io = .error e →
      cpuAndDiskIdleLoop samples (countersChain c0 f i) i fuel =
        some (.error (.DiskIoError e)) := by
  intro d
  induction d with
  | zero =>
    intro i fuel hd _ _ _ herr
    cases fuel with
    | zero => omega
    | succ fu =>
      rw [Nat.add_zero] at herr
      simp only [cpuAndDiskIdleLoop, herr]
  | succ d ih =>
    intro i fuel hd hs hm hni herr
    cases fuel with
    | zero => omega
    | succ fu =>
      have hsi := hs i (Nat.le_refl i) (by omega)
      have hmi := hm i (Nat.le_refl i) (by omega)
      have hnii : ¬idleAt c0 f g i := hni i (Nat.le_refl i) (by omega)
      rw [cpuAndDiskIdleLoop_step samples c0 f g i fu hsi hmi]
      rw [if_neg (fun hc => hnii ((idle_condition_iff c0 f g i hmi).mp hc))]
      have hchain : f i = countersChain c0 f (i + 1) := rfl
      rw [hchain]
      rw [show i + (d + 1) = (i + 1) + d by omega] at herr
      exact ih (i + 1) fu (by omega)
        (fun j h1 h2 => hs j (by omega) (by omega))
        (fun j h1 h2 => hm j (by omega) (by omega))
        (fun j h1 h2 => hni j (by omega) (by omega))
        herr

/-- Running the idle loop from iteration `i`: as above, but the CPU
sampling of sample `i + d` fails after its IO sampling succeeded. -/
theorem cpuAndDiskIdleLoop_cpuErr (samples : Nat → PerfSample)
    (c0 : IoCounters) (f : Nat → IoCounters) (g : Nat → ℚ) (e : String)
    (c : IoCounters) :
    ∀ (d i fuel : Nat), d < fuel →
      (∀ j, i ≤ j → j < i + d → samples j = { io := .ok (f j), cpu := .ok (g j) }) →
      (∀ j, i ≤ j → j < i + d → monoAt c0 f j) →
      (∀ j, i ≤ j → j < i + d → ¬idleAt c0 f g j) →
      (samples (i + d)).io = .ok c →
      (samples (i + d)).cpu = .error e →
      cpuAndDiskIdleLoop samples (countersChain c0 f i) i fuel =
        some (.error (.CpuTimeError e)) := by
  intro d
  induction d with
  | zero =>
    intro i fuel hd _ _ _ hio hcpu
    cases fuel with
    | zero => omega
    | succ fu =>
      rw [Nat.add_zero] at hio hcpu
      simp only [cpuAndDiskIdleLoop, hio, hcpu]
  | succ d ih =>
    intro i fuel hd hs hm hni hio hcpu
    cases fuel with
    | zero => omega
    | succ fu =>
      have hsi := hs i (Nat.le_refl i) (by omega)
      have hmi := hm i (Nat.le_refl i) (by omega)
      have hnii : ¬idleAt c0 f g i := hni i (Nat.le_refl i) (by omega)
      rw [cpuAndDiskIdleLoop_step samples c0 f g i fu hsi hmi]
      rw [if_neg (fun hc => hnii ((idle_condition_iff c0 f g i hmi).mp hc))]
      have hchain : f i = countersChain c0 f (i + 1) := rfl
      rw [hchain]
      rw [show i + (d + 1) = (i + 1) + d by omega] at hio hcpu
      exact ih (i + 1) fu (by omega)
        (fun j h1 h2 => hs j (by omega) (by omega))
        (fun j h1 h2 => hm j (by omega) (by omega))
        (fun j h1 h2 => hni j (by omega) (by omega))
        hio hcpu

/-- Claim C8: The idle wait performs at most `ATTEMPT_COUNT = 30`
iterations, each resampling the IO counters and the CPU idle fraction:
it succeeds at the first sample whose IO deltas are zero and whose
idle fraction reaches `TARGET_CPU_IDLE_PERCENTAGE = 95/100`; it times
out when all `ATTEMPT_COUNT` samples are non-idle; it propagates the
first disk or CPU sampling error; and a failing initial sample
propagates the disk sampling error immediately. -/
theorem c8_idle_wait_spec :
    (∀ (c0 : IoCounters) (f : Nat → IoCounters) (g : Nat → ℚ)
        (samples : Nat → PerfSample) (k : Nat),
      k < ATTEMPT_COUNT →
      samplesOkBelow samples f g (k + 1) →
      (∀ j, j ≤ k → monoAt c0 f j) →
      (∀ j, j < k → ¬idleAt c0 f g j) →
      idleAt c0 f g k →
      cpu_and_disk_idle (.ok c0) samples = some (.ok ())) ∧
    (∀ (c0 : IoCounters) (f : Nat → IoCounters) (g : Nat → ℚ)
        (samples : Nat → PerfSample),
      samplesOkBelow samples f g ATTEMPT_COUNT →
      (∀ j, j < ATTEMPT_COUNT → monoAt c0 f j) →
      (∀ j, j < ATTEMPT_COUNT → ¬idleAt c0 f g j) →
      cpu_and_disk_idle (.ok c0) samples = some (.error .TimeoutError)) ∧
    (∀ (c0 : IoCounters) (f : Nat → IoCounters) (g : Nat → ℚ)
        (samples : Nat → PerfSample) (k : Nat) (e : String),
      k < ATTEMPT_COUNT →
      samplesOkBelow samples f g k →
      (∀ j, j < k → monoAt c0 f j) →
      (∀ j, j < k → ¬idleAt c0 f g j) →
      (samples k).io = .error e →
      cpu_and_disk_idle (.ok c0) samples = some (.error (.DiskIoError e))) ∧
    (∀ (c0 : IoCounters) (f : Nat → IoCounters) (g : Nat → ℚ)
        (samples : Nat → PerfSample) (k : Nat) (e : String) (c : IoCounters),
      k < ATTEMPT_COUNT →
      samplesOkBelow samples f g k →
      (∀ j, j < k → monoAt c0 f j) →
      (∀ j, j < k → ¬idleAt c0 f g j) →
      (samples k).io = .ok c →
      (samples k).cpu = .error e →
      cpu_and_disk_idle (.ok c0) samples = some (.error (.CpuTimeError e))) ∧
    (∀ (samples : Nat → PerfSample) (e : String),
      cpu_and_disk_idle (.error e) samples = some (.error (.DiskIoError e))) ∧
    ATTEMPT_COUNT = 30 := by
  refine ⟨?_, ?_, ?_, ?_, fun _ _ => rfl, rfl⟩
  · intro c0 f g samples k hk hs hm hni hidle
    have h := cpuAndDiskIdleLoop_ok samples c0 f g k 0 ATTEMPT_COUNT hk
      (fun j h1 h2 => hs j (by omega))
      (fun j h1 h2 => hm j (by omega))
      (fun j h1 h2 => hni j (by omega))
      (by simpa using hidle)
    simpa [cpu_and_disk_idle, countersChain] using h
  · intro c0 f g samples hs hm hni
    have h := cpuAndDiskIdleLoop_timeout samples c0 f g ATTEMPT_COUNT 0
      (fun j h1 h2 => hs j (by omega))
      (fun j h1 h2 => hm j (by omega))
      (fun j h1 h2 => hni j (by omega))
    simpa [cpu_and_disk_idle, countersChain] using h
  · intro c0 f g samples k e hk hs hm hni herr
    have h := cpuAndDiskIdleLoop_diskErr samples c0 f g e k 0 ATTEMPT_COUNT hk
      (fun j h1 h2 => hs j (by omega))
      (fun j h1 h2 => hm j (by omega))
      (fun j h1 h2 => hni j (by omega))
      (by simpa using herr)
    simpa [cpu_and_disk_idle, countersChain] using h
  · intro c0 f g samples k e c hk hs hm hni hio hcpu
    have h := cpuAndDiskIdleLoop_cpuErr samples c0 f g e c k 0 ATTEMPT_COUNT hk
      (fun j h1 h2 => hs j (by omega))
      (fun j h1 h2 => hm j (by omega))
      (fun j h1 h2 => hni j (by omega))
      (by simpa using hio) (by simpa using hcpu)
    simpa [cpu_and_disk_idle, countersChain] using h

/-- Claim C8, witness: A system that is already idle at the first sample
(no IO movement, full idle fraction) makes the wait succeed. -/
theorem c8_idle_wait_spec_witness :
    cpu_and_disk_idle (.ok { reads := 0, writes := 0 })
        (fun _ => { io := .ok { reads := 0, writes := 0 }, cpu := .ok 1 }) =
      some (.ok ()) := by
  refine c8_idle_wait_spec.1 { reads := 0, writes := 0 }
    (fun _ => { reads := 0, writes := 0 }) (fun _ => 1) _ 0 (by decide)
    (fun j hj => rfl) (fun j hj => ?_) (fun j hj => absurd hj (Nat.not_lt_zero j)) ?_
  · have : j = 0 := by omega
    subst this
    exact ⟨Nat.le_refl 0, Nat.le_refl 0⟩
  · refine ⟨?_, rfl, rfl⟩
    norm_num [TARGET_CPU_IDLE_PERCENTAGE]

/-- The idle loop always yields a value (it cannot hit the underflow
branch) as long as the chain of successfully sampled IO counters is
non-decreasing. -/
theorem cpuAndDiskIdleLoop_isSome (samples : Nat → PerfSample) :
    ∀ (fuel i : Nat) (c : IoCounters), chainMono samples c i fuel = true →
      (cpuAndDiskIdleLoop samples c i fuel).isSome = true := by
  intro fuel
  induction fuel with
  | zero => intro i c _; rfl
  | succ fu ih =>
    intro i c h
    simp only [chainMono] at h
    simp only [cpuAndDiskIdleLoop]
    cases hio : (samples i).io with
    | error e => rfl
    | ok c' =>
      rw [hio] at h
      simp only [Bool.and_eq_true, decide_eq_true_eq] at h
      cases hcpu : (samples i).cpu with
      | error e => rfl
      | ok idle =>
        dsimp only
        rw [show checkedSub c'.reads c.reads = some (c'.reads - c.reads) from
          if_pos h.1.1]
        rw [show checkedSub c'.writes c.writes = some (c'.writes - c.writes) from
          if_pos h.1.2]
        dsimp only
        split
        · rfl
        · exact ih (i + 1) c' h.2

/-- Claim C10: The per-interval IO deltas are computed by the unsigned
subtraction `checkedSub` of the previous sample from the new one;
under the precondition that the successively sampled IO counters are
monotonically non-decreasing along the execution chain (`chainMono`),
the subtraction never underflows, so `cpu_and_disk_idle` never hits
the panic branch (`none`) and is total, whatever the initial sample
was. -/
theorem c10_delta_no_underflow (c0 : IoCounters) (samples : Nat → PerfSample)
    (hmono : chainMono samples c0 0 ATTEMPT_COUNT = true) :
    (cpu_and_disk_idle (.ok c0) samples).isSome = true ∧
    (∀ e, (cpu_and_disk_idle (.error e) samples).isSome = true) :=
  ⟨cpuAndDiskIdleLoop_isSome samples ATTEMPT_COUNT 0 c0 hmono, fun _ => rfl⟩

/-- Claim C10, witness: Strictly increasing counters never underflow:
the wait terminates (with a timeout, but without a panic). -/
theorem c10_delta_no_underflow_witness :
    (cpu_and_disk_idle (.ok { reads := 0, writes := 0 })
        (fun j => { io := .ok { reads := j, writes := j }, cpu := .ok 0 })).isSome =
      true :=
  (c10_delta_no_underflow { reads := 0, writes := 0 }
    (fun j => { io := .ok { reads := j, writes := j }, cpu := .ok 0 })
    (by decide)).1

end Fxrecord
